import Mathlib

/-!
Verification of the BodyVision repository (pose evaluation, main loop,
text rendering, UI feedback panel) against its natural-language
specification.  Python code is shallowly embedded: coordinates that the
code stores as Python ints are modelled as ℤ, values produced by true
division as ℚ, and the transcendental angle computation over ℝ.
-/

namespace BodyVision

/-- Python int() applied to a rational value: truncation toward zero. -/
def pyIntQ (q : ℚ) : ℤ := if 0 ≤ q then Int.floor q else Int.ceil q

theorem pyIntQ_abs_sub_lt_one (q : ℚ) : |(pyIntQ q : ℚ) - q| < 1 := by
  unfold pyIntQ
  split
  · rw [abs_sub_lt_iff]
    constructor
    · linarith [Int.floor_le q]
    · linarith [Int.lt_floor_add_one q]
  · rw [abs_sub_lt_iff]
    constructor
    · linarith [Int.ceil_lt_add_one q]
    · linarith [Int.le_ceil q]

theorem pyIntQ_le_of_lt {q : ℚ} {d : ℤ} (hd : 0 < d) (h : q < d) : pyIntQ q ≤ d := by
  unfold pyIntQ
  split
  · exact_mod_cast (Int.floor_le_floor h.le).trans (by simp)
  · have hq : q ≤ 0 := le_of_not_le (by assumption)
    have : Int.ceil q ≤ (0 : ℤ) := Int.ceil_le.mpr (by exact_mod_cast hq)
    exact this.trans hd.le

theorem pyIntQ_le_of_le_of_nonneg {q : ℚ} {d : ℤ} (hq : 0 ≤ q) (h : q ≤ d) :
    pyIntQ q ≤ d := by
  unfold pyIntQ
  rw [if_pos hq]
  exact_mod_cast (Int.floor_le_floor h).trans (by simp)

/-! ## Messages (string constants of pose_evaluator.py) -/

def msgIncorrectHead : String := "Posicao incorreta - "
def msgSep : String := "; "
def msgDot : String := "."
def msgDBPraise : String := "Posicao correta - Excelente postura!"
def msgDBElbowL : String := "Cotovelo esquerdo muito baixo"
def msgDBElbowR : String := "Cotovelo direito muito baixo"
def msgDBAngleL : String := "Angulo do braco esquerdo fora do intervalo (30-80 graus)"
def msgDBAngleR : String := "Angulo do braco direito fora do intervalo (30-80 graus)"
def msgSCPraise : String := "Posicao correta - Excelente side chest!"
def msgSCAngle : String := "Braco visivel deve estar contraido (75-90 graus)"
def msgSCNoShoulders : String := "Nao foi possivel detectar os ombros"
def msgMMPraise : String := "Posicao correta - Excelente most muscular!"
def msgMMElbowL : String := "Cotovelo esquerdo deve estar abaixo do ombro"
def msgMMElbowR : String := "Cotovelo direito deve estar abaixo do ombro"
def msgMMHands : String := "Bracos devem estar contraidos um contra o outro - aproxime as maos"

/-- Build the verdict string from the error list, as the Python functions do:
an empty error list yields the praise string, otherwise the errors are joined
with a semicolon separator behind the incorrect-position head. -/
def verdictOf (praise : String) (errs : List String) : String :=
  if errs = [] then praise
  else msgIncorrectHead ++ String.intercalate msgSep errs ++ msgDot

/-- Any verdict built from a nonempty error list differs from a string whose
ninth character is not the letter i (all praise strings have a c there). -/
theorem verdict_ne_of_ninth {p q : String} {errs : List String}
    (hne : errs ≠ []) (h9 : q.data[8]? = some 'c') :
    verdictOf p errs ≠ q := by
  intro hcontra
  rw [verdictOf, if_neg hne] at hcontra
  have hdata : (msgIncorrectHead ++ String.intercalate msgSep errs ++ msgDot).data = q.data := by
    rw [hcontra]
  rw [String.data_append, String.data_append, List.append_assoc] at hdata
  have h8 : (msgIncorrectHead.data ++
      ((String.intercalate msgSep errs).data ++ msgDot.data))[8]? = some 'i' := by
    rw [List.getElem?_append_left (by decide)]
    decide
  rw [hdata, h9] at h8
  exact absurd (Option.some.inj h8) (by decide)

/-! ## pose_evaluator.py: evaluate_double_biceps -/

/-- The error list accumulated by evaluate_double_biceps (source order). -/
def doubleBicepsErrors (left_angle right_angle left_elbow_height right_elbow_height
    left_shoulder_height right_shoulder_height : ℚ) : List String :=
  (if left_elbow_height > left_shoulder_height then [msgDBElbowL] else []) ++
  (if right_elbow_height > right_shoulder_height then [msgDBElbowR] else []) ++
  (if ¬ (30 ≤ left_angle ∧ left_angle ≤ 80) then [msgDBAngleL] else []) ++
  (if ¬ (30 ≤ right_angle ∧ right_angle ≤ 80) then [msgDBAngleR] else [])

def evaluate_double_biceps (left_angle right_angle left_elbow_height right_elbow_height
    left_shoulder_height right_shoulder_height : ℚ) : String :=
  verdictOf msgDBPraise (doubleBicepsErrors left_angle right_angle left_elbow_height
    right_elbow_height left_shoulder_height right_shoulder_height)

/-! ## pose_evaluator.py: evaluate_most_muscular -/

/-- The error list accumulated by evaluate_most_muscular (source order).
The arm angles, knee angles and torso alignment are accepted but unused,
exactly as in the source. -/
def mostMuscularErrors (left_arm_angle right_arm_angle : ℚ)
    (left_elbow_height right_elbow_height left_shoulder_height right_shoulder_height
      shoulder_width : ℤ) (left_knee_angle right_knee_angle : ℚ) (torso_alignment : ℤ)
    (left_wrist_x right_wrist_x left_shoulder_x right_shoulder_x : ℤ) : List String :=
  (if left_elbow_height ≤ left_shoulder_height + 10 then [msgMMElbowL] else []) ++
  (if right_elbow_height ≤ right_shoulder_height + 10 then [msgMMElbowR] else []) ++
  (if 0 < |right_shoulder_x - left_shoulder_x| ∧
      ((|left_wrist_x - right_wrist_x| : ℤ) : ℚ) >
        ((|right_shoulder_x - left_shoulder_x| : ℤ) : ℚ) * (1/2)
    then [msgMMHands] else [])

def evaluate_most_muscular (left_arm_angle right_arm_angle : ℚ)
    (left_elbow_height right_elbow_height left_shoulder_height right_shoulder_height
      shoulder_width : ℤ) (left_knee_angle right_knee_angle : ℚ) (torso_alignment : ℤ)
    (left_wrist_x right_wrist_x left_shoulder_x right_shoulder_x : ℤ) : String :=
  verdictOf msgMMPraise (mostMuscularErrors left_arm_angle right_arm_angle
    left_elbow_height right_elbow_height left_shoulder_height right_shoulder_height
    shoulder_width left_knee_angle right_knee_angle torso_alignment
    left_wrist_x right_wrist_x left_shoulder_x right_shoulder_x)

/-! ## pose_evaluator.py: evaluate_side_chest -/

def sideChestErrors (visible_arm_angle : ℚ) : List String :=
  if ¬ (75 ≤ visible_arm_angle ∧ visible_arm_angle ≤ 90) then [msgSCAngle] else []

def evaluate_side_chest (visible_arm_angle : ℚ) (visible_elbow_height visible_shoulder_height
    hip_rotation : ℤ) (visible_knee_angle opposite_arm_angle : ℚ) : String :=
  verdictOf msgSCPraise (sideChestErrors visible_arm_angle)

end BodyVision

namespace BodyVision

theorem doubleBicepsErrors_eq_nil_iff (la ra leh reh lsh rsh : ℚ) :
    doubleBicepsErrors la ra leh reh lsh rsh = [] ↔
      (leh ≤ lsh ∧ reh ≤ rsh ∧ 30 ≤ la ∧ la ≤ 80 ∧ 30 ≤ ra ∧ ra ≤ 80) := by
  unfold doubleBicepsErrors
  split_ifs with h1 h2 h3 h4 <;> push_neg at * <;> simp_all

/-- Claim C5: evaluate_double_biceps returns the praise string exactly when
neither elbow height exceeds the corresponding shoulder height and both arm
angles lie in the inclusive range [30, 80]; with both elbows above both
shoulders (elbow y strictly below shoulder y) and one arm angle at 29.9 or
80.1 while the other is in range, the error list holds exactly the one
angle reason for that arm. -/
theorem C5_double_biceps_praise_iff_and_single_angle_reason :
    (∀ la ra leh reh lsh rsh : ℚ,
      evaluate_double_biceps la ra leh reh lsh rsh = msgDBPraise ↔
        (leh ≤ lsh ∧ reh ≤ rsh ∧ 30 ≤ la ∧ la ≤ 80 ∧ 30 ≤ ra ∧ ra ≤ 80)) ∧
    doubleBicepsErrors (299/10) 50 0 0 1 1 = [msgDBAngleL] ∧
    doubleBicepsErrors (801/10) 50 0 0 1 1 = [msgDBAngleL] ∧
    doubleBicepsErrors 50 (299/10) 0 0 1 1 = [msgDBAngleR] ∧
    doubleBicepsErrors 50 (801/10) 0 0 1 1 = [msgDBAngleR] ∧
    evaluate_double_biceps (299/10) 50 0 0 1 1 = msgIncorrectHead ++ msgDBAngleL ++ msgDot := by
  have e1 : doubleBicepsErrors (299/10) 50 0 0 1 1 = [msgDBAngleL] := by
    norm_num [doubleBicepsErrors]
  have e2 : doubleBicepsErrors (801/10) 50 0 0 1 1 = [msgDBAngleL] := by
    norm_num [doubleBicepsErrors]
  have e3 : doubleBicepsErrors 50 (299/10) 0 0 1 1 = [msgDBAngleR] := by
    norm_num [doubleBicepsErrors]
  have e4 : doubleBicepsErrors 50 (801/10) 0 0 1 1 = [msgDBAngleR] := by
    norm_num [doubleBicepsErrors]
  refine ⟨?_, e1, e2, e3, e4, ?_⟩
  · intro la ra leh reh lsh rsh
    rw [← doubleBicepsErrors_eq_nil_iff la ra leh reh lsh rsh]
    unfold evaluate_double_biceps
    constructor
    · intro h
      by_contra hne
      exact verdict_ne_of_ninth hne (by decide) h
    · intro h
      rw [verdictOf, if_pos h]
  · unfold evaluate_double_biceps
    rw [e1, verdictOf]
    decide

theorem mostMuscularErrors_members (laa raa : ℚ) (leh reh lsh rsh sw : ℤ)
    (lka rka : ℚ) (ta lwx rwx lsx rsx : ℤ) :
    (msgMMElbowL ∈ mostMuscularErrors laa raa leh reh lsh rsh sw lka rka ta lwx rwx lsx rsx ↔
      leh ≤ lsh + 10) ∧
    (msgMMElbowR ∈ mostMuscularErrors laa raa leh reh lsh rsh sw lka rka ta lwx rwx lsx rsx ↔
      reh ≤ rsh + 10) ∧
    (msgMMHands ∈ mostMuscularErrors laa raa leh reh lsh rsh sw lka rka ta lwx rwx lsx rsx ↔
      (0 < |rsx - lsx| ∧ ((|lwx - rwx| : ℤ) : ℚ) > ((|rsx - lsx| : ℤ) : ℚ) * (1/2))) := by
  unfold mostMuscularErrors
  split_ifs with h1 h2 h3 <;> simp_all [msgMMElbowL, msgMMElbowR, msgMMHands]

/-- Claim C6: evaluate_most_muscular flags an elbow reason exactly when that
elbow Y is at most the shoulder Y plus 10, and flags the bring-hands-closer
reason exactly when the actual shoulder width is positive and the wrist
X-distance exceeds half of it; with shoulder width 200, wrist distance 90
and both elbows more than 10px below both shoulders the verdict is the
praise string, while wrist distance 110 under the same conditions yields
exactly the bring-hands-closer reason. -/
theorem C6_most_muscular_reasons_and_examples :
    (∀ (laa raa : ℚ) (leh reh lsh rsh sw : ℤ) (lka rka : ℚ) (ta lwx rwx lsx rsx : ℤ),
      (msgMMElbowL ∈ mostMuscularErrors laa raa leh reh lsh rsh sw lka rka ta lwx rwx lsx rsx ↔
        leh ≤ lsh + 10) ∧
      (msgMMElbowR ∈ mostMuscularErrors laa raa leh reh lsh rsh sw lka rka ta lwx rwx lsx rsx ↔
        reh ≤ rsh + 10) ∧
      (msgMMHands ∈ mostMuscularErrors laa raa leh reh lsh rsh sw lka rka ta lwx rwx lsx rsx ↔
        (0 < |rsx - lsx| ∧ ((|lwx - rwx| : ℤ) : ℚ) > ((|rsx - lsx| : ℤ) : ℚ) * (1/2)))) ∧
    evaluate_most_muscular 0 0 111 111 100 100 200 175 175 0 55 145 0 200 = msgMMPraise ∧
    mostMuscularErrors 0 0 111 111 100 100 200 175 175 0 45 155 0 200 = [msgMMHands] ∧
    evaluate_most_muscular 0 0 111 111 100 100 200 175 175 0 45 155 0 200 =
      msgIncorrectHead ++ msgMMHands ++ msgDot := by
  have e0 : mostMuscularErrors 0 0 111 111 100 100 200 175 175 0 55 145 0 200 = [] := by
    norm_num [mostMuscularErrors]
  have e1 : mostMuscularErrors 0 0 111 111 100 100 200 175 175 0 45 155 0 200 =
      [msgMMHands] := by
    norm_num [mostMuscularErrors]
  refine ⟨mostMuscularErrors_members, ?_, e1, ?_⟩
  · unfold evaluate_most_muscular
    rw [e0, verdictOf, if_pos rfl]
  · unfold evaluate_most_muscular
    rw [e1, verdictOf]
    decide

end BodyVision

namespace BodyVision

/-! ## BodyVision.py: the side_chest branch of _evaluate_pose -/

/-- The twelve joints extracted by process_frame, named as in the source. -/
inductive Joint where
  | leftShoulder | leftElbow | leftWrist
  | rightShoulder | rightElbow | rightWrist
  | leftHip | rightHip | leftKnee | rightKnee | leftAnkle | rightAnkle
deriving DecidableEq

/-- A Point Map: the points dictionary built by process_frame, viewed as a
partial map from joints to integer pixel coordinates. -/
def PointMap : Type := Joint → Option (ℤ × ℤ)

/-- hip_rotation as computed in the side_chest branch: the absolute X
distance of the hips when both are present, else 0. -/
def hipRotationOf (points : PointMap) : ℤ :=
  match points Joint.leftHip, points Joint.rightHip with
  | some lh, some rh => |lh.1 - rh.1|
  | _, _ => 0

/-- The side_chest branch of _evaluate_pose.  Both shoulders are required;
the shoulder-midpoint X is formed by true division, each shoulder distance
to it is compared, and the strictly smaller one selects the visible side.
Elbow height defaults to 0 when the elbow is absent, and the knee angle
defaults to 170 when the computed knee angle is not positive. -/
def sideChestBranch (points : PointMap)
    (angle_left angle_right angle_left_knee angle_right_knee : ℚ) : String :=
  match points Joint.leftShoulder, points Joint.rightShoulder with
  | some ls, some rs =>
    let shoulder_center_x : ℚ := ((ls.1 : ℚ) + (rs.1 : ℚ)) / 2
    let left_distance : ℚ := |(ls.1 : ℚ) - shoulder_center_x|
    let right_distance : ℚ := |(rs.1 : ℚ) - shoulder_center_x|
    if left_distance < right_distance then
      evaluate_side_chest angle_left ((points Joint.leftElbow).getD (0, 0)).2 ls.2
        (hipRotationOf points)
        (if angle_left_knee > 0 then angle_left_knee else 170) angle_right
    else
      evaluate_side_chest angle_right ((points Joint.rightElbow).getD (0, 0)).2 rs.2
        (hipRotationOf points)
        (if angle_right_knee > 0 then angle_right_knee else 170) angle_left
  | _, _ => msgSCNoShoulders

/-- Claim C1 (amended): the shoulder-midpoint X is by construction equidistant
from the two shoulder X coordinates, so the strict comparison
left_distance < right_distance is always false and the side_chest evaluation
always selects the RIGHT side: the right arm angle, right elbow height and
right shoulder height are passed as the visible side, with the visible knee
angle defaulting to 170 degrees when the right knee angle is not positive. -/
theorem C1_side_chest_always_selects_right_side (points : PointMap)
    (angle_left angle_right angle_left_knee angle_right_knee : ℚ)
    (ls rs : ℤ × ℤ) (hls : points Joint.leftShoulder = some ls)
    (hrs : points Joint.rightShoulder = some rs) :
    |(ls.1 : ℚ) - ((ls.1 : ℚ) + (rs.1 : ℚ)) / 2| =
      |(rs.1 : ℚ) - ((ls.1 : ℚ) + (rs.1 : ℚ)) / 2| ∧
    sideChestBranch points angle_left angle_right angle_left_knee angle_right_knee =
      evaluate_side_chest angle_right ((points Joint.rightElbow).getD (0, 0)).2 rs.2
        (hipRotationOf points)
        (if angle_right_knee > 0 then angle_right_knee else 170) angle_left := by
  have hdist : |(ls.1 : ℚ) - ((ls.1 : ℚ) + (rs.1 : ℚ)) / 2| =
      |(rs.1 : ℚ) - ((ls.1 : ℚ) + (rs.1 : ℚ)) / 2| := by
    have h1 : (ls.1 : ℚ) - ((ls.1 : ℚ) + (rs.1 : ℚ)) / 2 = ((ls.1 : ℚ) - (rs.1 : ℚ)) / 2 := by
      ring
    have h2 : (rs.1 : ℚ) - ((ls.1 : ℚ) + (rs.1 : ℚ)) / 2 = ((rs.1 : ℚ) - (ls.1 : ℚ)) / 2 := by
      ring
    rw [h1, h2, abs_div, abs_div, abs_sub_comm]
  refine ⟨hdist, ?_⟩
  unfold sideChestBranch
  rw [hls, hrs]
  simp only [hdist, lt_irrefl, if_false]

/-- A concrete point map: left shoulder at X=100, right shoulder at X=300,
nothing else detected.  This is the configuration named by claim C1. -/
def pointsC1 : PointMap := fun j =>
  match j with
  | Joint.leftShoulder => some (100, 50)
  | Joint.rightShoulder => some (300, 60)
  | _ => none

/-- Claim C1 is false as stated: with the left shoulder at X=100 and the
right at X=300 (midpoint 200) the two distances to the midpoint are equal
(the left shoulder is never strictly closer), and the evaluation uses the
RIGHT arm angle: with a left arm angle of 80 (inside [75,90]) and a right
arm angle of 10, the verdict is the incorrect-position message, not the
praise the left-arm selection would produce. -/
theorem C1_counterexample :
    |(100 : ℚ) - 200| = |(300 : ℚ) - 200| ∧
    sideChestBranch pointsC1 80 10 0 0 = msgIncorrectHead ++ msgSCAngle ++ msgDot ∧
    evaluate_side_chest 80 0 50 0 170 10 = msgSCPraise ∧
    msgIncorrectHead ++ msgSCAngle ++ msgDot ≠ msgSCPraise := by
  refine ⟨by norm_num, ?_, ?_, by decide⟩
  · unfold sideChestBranch pointsC1 evaluate_side_chest sideChestErrors
    norm_num [verdictOf]
    decide
  · unfold evaluate_side_chest sideChestErrors
    norm_num [verdictOf]

/-- Witness for C1: the amended theorem applied at the concrete C1 point map,
with the hypotheses discharged by rfl. -/
theorem C1_witness :
    sideChestBranch pointsC1 80 10 0 0 =
      evaluate_side_chest 10 ((pointsC1 Joint.rightElbow).getD (0, 0)).2 60
        (hipRotationOf pointsC1) (if (0 : ℚ) > 0 then 0 else 170) 80 :=
  (C1_side_chest_always_selects_right_side pointsC1 80 10 0 0
    (100, 50) (300, 60) rfl rfl).2

end BodyVision

namespace BodyVision

/-! ## BodyVision.py: point extraction in process_frame -/

/-- A detected landmark with normalized coordinates, as exposed by the
pose-estimation model. -/
structure Landmark where
  x : ℚ
  y : ℚ
deriving DecidableEq

/-- The PoseLandmark enum value of each joint (mediapipe indices). -/
def jointIdx : Joint → ℕ
  | Joint.leftShoulder => 11
  | Joint.rightShoulder => 12
  | Joint.leftElbow => 13
  | Joint.rightElbow => 14
  | Joint.leftWrist => 15
  | Joint.rightWrist => 16
  | Joint.leftHip => 23
  | Joint.rightHip => 24
  | Joint.leftKnee => 25
  | Joint.rightKnee => 26
  | Joint.leftAnkle => 27
  | Joint.rightAnkle => 28

/-- The fixed order in which process_frame assigns the twelve joints. -/
def jointOrder : List Joint :=
  [Joint.leftShoulder, Joint.leftElbow, Joint.leftWrist,
   Joint.rightShoulder, Joint.rightElbow, Joint.rightWrist,
   Joint.leftHip, Joint.rightHip, Joint.leftKnee, Joint.rightKnee,
   Joint.leftAnkle, Joint.rightAnkle]

/-- Pixel point of a landmark: int(x * camera_width), int(y * h). -/
def pointOf (lm : Landmark) (w h : ℚ) : ℤ × ℤ :=
  (pyIntQ (lm.x * w), pyIntQ (lm.y * h))

/-- The single try block of process_frame: joints are assigned in order and
the first failing landmark index raises, aborting the rest of the block;
the except clause keeps whatever was assigned so far. -/
def extractGo (lms : List Landmark) (w h : ℚ) :
    List Joint → List (Joint × (ℤ × ℤ)) → List (Joint × (ℤ × ℤ))
  | [], acc => acc
  | j :: rest, acc =>
    match lms.get? (jointIdx j) with
    | none => acc
    | some lm => extractGo lms w h rest (acc ++ [(j, pointOf lm w h)])

/-- The points dictionary produced by process_frame for a landmark list. -/
def extractPoints (lms : List Landmark) (w h : ℚ) : List (Joint × (ℤ × ℤ)) :=
  extractGo lms w h jointOrder []

/-- The joints whose landmark index is in range, taken in order up to the
first failure, each mapped to its pixel point. -/
def extractUpToFailure (lms : List Landmark) (w h : ℚ) : List (Joint × (ℤ × ℤ)) :=
  (jointOrder.takeWhile (fun j => decide (jointIdx j < lms.length))).map
    (fun j => (j, pointOf (lms.getD (jointIdx j) (Landmark.mk 0 0)) w h))

theorem extractGo_eq_takeWhile (lms : List Landmark) (w h : ℚ) (js : List Joint)
    (acc : List (Joint × (ℤ × ℤ))) :
    extractGo lms w h js acc =
      acc ++ (js.takeWhile (fun j => decide (jointIdx j < lms.length))).map
        (fun j => (j, pointOf (lms.getD (jointIdx j) (Landmark.mk 0 0)) w h)) := by
  induction js generalizing acc with
  | nil => simp [extractGo]
  | cons j rest ih =>
    cases hg : lms.get? (jointIdx j) with
    | none =>
      have hlen : ¬ jointIdx j < lms.length := not_lt.mpr (List.get?_eq_none.mp hg)
      simp only [extractGo, hg]
      simp [List.takeWhile_cons, hlen]
    | some lm =>
      have hlen : jointIdx j < lms.length := by
        by_contra hc
        rw [not_lt] at hc
        rw [List.get?_eq_none.mpr hc] at hg
        simp at hg
      have hD : lms.getD (jointIdx j) (Landmark.mk 0 0) = lm := by
        rw [List.getD_eq_getElem?_getD, ← List.get?_eq_getElem?, hg]
        rfl
      have hE : lms[jointIdx j] = lm := by
        have h1 : lms[jointIdx j]? = some lm := by
          rw [← List.get?_eq_getElem?]
          exact hg
        rw [List.getElem?_eq_getElem hlen] at h1
        exact Option.some.inj h1
      simp only [extractGo, hg]
      rw [ih]
      simp [List.takeWhile_cons, hlen, hD, hE]

/-- Claim C4 (amended): extraction is NOT best-effort per joint.  The twelve
assignments live in one try block, so the first joint whose landmark index
fails aborts the remaining assignments: the resulting Point Map is exactly
the in-order prefix of joints whose landmark lookup succeeds before the
first failure. -/
theorem C4_extraction_stops_at_first_failure (lms : List Landmark) (w h : ℚ) :
    extractPoints lms w h = extractUpToFailure lms w h := by
  rw [extractPoints, extractUpToFailure, extractGo_eq_takeWhile]
  simp

/-- Fifteen landmarks: indices 0..14 exist, so LEFT_SHOULDER (11),
LEFT_ELBOW (13) succeed but LEFT_WRIST (15) raises, although
RIGHT_SHOULDER (12) and others up to 14 are perfectly indexable. -/
def lmsC4 : List Landmark := List.replicate 15 (Landmark.mk 0 0)

/-- Claim C4 is false as stated: with 15 landmarks the failure at
LEFT_WRIST (index 15) also removes RIGHT_SHOULDER, RIGHT_ELBOW and
RIGHT_WRIST from the Point Map even though their landmark indices (12, 14)
and 16 is out but 12 and 14 are in range; joints that did not fail are
absent, contradicting best-effort per-joint extraction. -/
theorem C4_counterexample :
    extractPoints lmsC4 1 1 =
      [(Joint.leftShoulder, ((0 : ℤ), (0 : ℤ))), (Joint.leftElbow, ((0 : ℤ), (0 : ℤ)))] ∧
    (lmsC4.get? (jointIdx Joint.rightShoulder)).isSome = true ∧
    (extractPoints lmsC4 1 1).lookup Joint.rightShoulder = none := by
  have hmap : extractPoints lmsC4 1 1 =
      [(Joint.leftShoulder, ((0 : ℤ), (0 : ℤ))), (Joint.leftElbow, ((0 : ℤ), (0 : ℤ)))] := by
    unfold extractPoints
    rw [extractGo_eq_takeWhile]
    norm_num [lmsC4, jointOrder, jointIdx, pointOf, pyIntQ]
  refine ⟨hmap, by decide, ?_⟩
  rw [hmap]
  rfl

end BodyVision

namespace BodyVision

/-! ## BodyVision.py: frame-read failure handling in the main loop -/

/-- max_frame_errors in run(). -/
def maxFrameErrors : ℕ := 10

/-- The frame-read bookkeeping of the main loop, folded over a list of read
outcomes (true = successful read).  A failed read increments the counter and
the loop breaks when the counter exceeds max_frame_errors (returning none);
a successful read resets the counter to 0.  some c means the loop is still
running with counter value c after consuming the reads. -/
def runReads : ℕ → List Bool → Option ℕ
  | c, [] => some c
  | c, ok :: rest =>
    if ok then runReads 0 rest
    else if c + 1 > maxFrameErrors then none
    else runReads (c + 1) rest

/-- Claim C3 is false as stated: ten consecutive failed reads do NOT
terminate the main loop; the loop is still running with the failure
counter at 10, because the break condition is counter > 10. -/
theorem C3_counterexample : runReads 0 (List.replicate 10 false) = some 10 := by
  decide

/-- Claim C3 (amended): up to ten consecutive failed frame reads leave the
loop running; the eleventh consecutive failure terminates it (after which
control falls through to the unconditional cleanup code); and a successful
read after fewer than ten consecutive failures resets the counter to 0. -/
theorem C3_frame_error_thresholds :
    runReads 0 (List.replicate 10 false) = some 10 ∧
    runReads 0 (List.replicate 11 false) = none ∧
    (∀ (c : ℕ) (rest : List Bool), c < 10 →
      runReads c (true :: rest) = runReads 0 rest) := by
  refine ⟨by decide, by decide, ?_⟩
  intro c rest _
  rw [runReads, if_pos rfl]

/-- Witness for C3: the reset clause applied at a concrete counter value. -/
theorem C3_witness : runReads 3 (true :: []) = runReads 0 [] :=
  C3_frame_error_thresholds.2.2 3 [] (by decide)

/-! ## BodyVision.py: key dispatch in the main loop -/

def modeEnquadramento : String := "enquadramento"
def modeDoubleBiceps : String := "double_biceps"
def modeBackDoubleBiceps : String := "back_double_biceps"
def modeSideChest : String := "side_chest"
def modeMostMuscular : String := "most_muscular"

/-- The key dispatch at the bottom of the main loop, applied to the masked
key code (waitKey and 0xFF) and the current pose mode.  none means the
branch executes break (the loop terminates); some m means the loop
continues with pose mode m.  Key codes: q=113, Esc=27, f=102, F=70,
digits 1..5 = 49..53.  The f/F branch only toggles fullscreen. -/
def keyStep (key : ℕ) (mode : String) : Option String :=
  if key = 113 ∨ key = 27 then none
  else if key = 102 ∨ key = 70 then some mode
  else if key = 49 then some modeEnquadramento
  else if key = 50 then some modeDoubleBiceps
  else if key = 51 then some modeBackDoubleBiceps
  else if key = 52 then some modeSideChest
  else if key = 53 then some modeMostMuscular
  else some mode

/-- Claim C8 is false as stated: pressing capital Q (key code 81) does not
terminate the loop; it falls through every branch and the loop continues
unchanged. -/
theorem C8_counterexample : keyStep 81 modeEnquadramento = some modeEnquadramento := by
  decide

/-- Claim C8 (amended): the key dispatch terminates the main loop exactly
for lowercase q (113) and Escape (27); capital Q (81) and every other key
code leave the loop running. -/
theorem C8_quit_keys (key : ℕ) (mode : String) :
    keyStep key mode = none ↔ (key = 113 ∨ key = 27) := by
  unfold keyStep
  split_ifs with h1 h2 h3 h4 h5 h6 h7 <;> simp_all

/-- Witness for C8: the quit equivalence evaluated at the Escape key. -/
theorem C8_witness : keyStep 27 modeEnquadramento = none :=
  (C8_quit_keys 27 modeEnquadramento).mpr (Or.inr rfl)

end BodyVision

namespace BodyVision

/-! ## BodyVision.py: letterboxed display size in the main loop -/

/-- camera_aspect: frame_w / frame_h with a 16/9 fallback for degenerate
frames. -/
def cameraAspect (frame_w frame_h : ℤ) : ℚ :=
  if frame_h > 0 then (frame_w : ℚ) / (frame_h : ℚ) else 16 / 9

/-- display_aspect: camera_display_width / camera_display_height with a
16/9 fallback. -/
def displayAspect (dw dh : ℤ) : ℚ :=
  if dh > 0 then (dw : ℚ) / (dh : ℚ) else 16 / 9

/-- The aspect-preserving resize computation of the main loop: pick the
limiting dimension by comparing aspect ratios, truncate the other with
int(), then clamp both to the display area. -/
def letterbox (frame_w frame_h dw dh : ℤ) : ℤ × ℤ :=
  (min (if cameraAspect frame_w frame_h > displayAspect dw dh then dw
        else pyIntQ ((dh : ℚ) * cameraAspect frame_w frame_h)) dw,
   min (if cameraAspect frame_w frame_h > displayAspect dw dh then
          pyIntQ ((dw : ℚ) / cameraAspect frame_w frame_h)
        else dh) dh)

theorem cameraAspect_eq {fw fh : ℤ} (hfh : 0 < fh) :
    cameraAspect fw fh = (fw : ℚ) / (fh : ℚ) := by
  unfold cameraAspect
  rw [if_pos hfh]

theorem displayAspect_eq {dw dh : ℤ} (hdh : 0 < dh) :
    displayAspect dw dh = (dw : ℚ) / (dh : ℚ) := by
  unfold displayAspect
  rw [if_pos hdh]

theorem letterbox_fst_le (fw fh dw dh : ℤ) : (letterbox fw fh dw dh).1 ≤ dw :=
  min_le_right _ _

theorem letterbox_snd_le (fw fh dw dh : ℤ) : (letterbox fw fh dw dh).2 ≤ dh :=
  min_le_right _ _

theorem letterbox_wide (fw fh dw dh : ℤ) (hfw : 0 < fw) (hfh : 0 < fh) (hdh : 0 < dh)
    (hbr : cameraAspect fw fh > displayAspect dw dh) :
    letterbox fw fh dw dh = (dw, pyIntQ ((dw : ℚ) / cameraAspect fw fh)) := by
  have hq : (dw : ℚ) / cameraAspect fw fh < dh := by
    rw [cameraAspect_eq hfh] at *
    rw [displayAspect_eq hdh] at hbr
    rw [gt_iff_lt] at hbr
    rw [div_div_eq_mul_div]
    rw [div_lt_iff (by exact_mod_cast hfw)]
    rw [div_lt_div_iff (by exact_mod_cast hdh) (by exact_mod_cast hfh)] at hbr
    linarith
  unfold letterbox
  rw [if_pos hbr, if_pos hbr, min_self, min_eq_left (pyIntQ_le_of_lt hdh hq)]

theorem letterbox_tall (fw fh dw dh : ℤ) (hfw : 0 < fw) (hfh : 0 < fh) (hdh : 0 < dh)
    (hbr : ¬ cameraAspect fw fh > displayAspect dw dh) :
    letterbox fw fh dw dh = (pyIntQ ((dh : ℚ) * cameraAspect fw fh), dh) := by
  have hpos : 0 ≤ (dh : ℚ) * cameraAspect fw fh := by
    rw [cameraAspect_eq hfh]
    positivity
  have hq : (dh : ℚ) * cameraAspect fw fh ≤ dw := by
    rw [not_lt] at hbr
    rw [cameraAspect_eq hfh] at *
    rw [displayAspect_eq hdh] at hbr
    rw [mul_div_assoc'] at *
    rw [div_le_iff (by exact_mod_cast hfh)]
    rw [div_le_div_iff (by exact_mod_cast hfh) (by exact_mod_cast hdh)] at hbr
    linarith
  unfold letterbox
  rw [if_neg hbr, if_neg hbr, min_self, min_eq_left (pyIntQ_le_of_le_of_nonneg hpos hq)]

/-- Claim C7 (amended): for any positive camera frame size, the letterboxed
display size never exceeds the display-area bounds in either dimension; and
whenever the display-area height is positive (which the main loop
guarantees), the result preserves the camera aspect ratio to within
integer-rounding tolerance: the cross products new_w * frame_h and
new_h * frame_w differ by less than max(frame_w, frame_h). -/
theorem C7_letterbox_bounds_and_aspect (fw fh dw dh : ℤ)
    (hfw : 0 < fw) (hfh : 0 < fh) :
    (letterbox fw fh dw dh).1 ≤ dw ∧ (letterbox fw fh dw dh).2 ≤ dh ∧
    (0 < dh →
      |((letterbox fw fh dw dh).1 : ℚ) * fh - ((letterbox fw fh dw dh).2 : ℚ) * fw| <
        max (fw : ℚ) (fh : ℚ)) := by
  refine ⟨letterbox_fst_le fw fh dw dh, letterbox_snd_le fw fh dw dh, ?_⟩
  intro hdh
  have hfwQ : (0 : ℚ) < fw := by exact_mod_cast hfw
  have hfhQ : (0 : ℚ) < fh := by exact_mod_cast hfh
  by_cases hbr : cameraAspect fw fh > displayAspect dw dh
  · rw [letterbox_wide fw fh dw dh hfw hfh hdh hbr]
    have hca : cameraAspect fw fh = (fw : ℚ) / (fh : ℚ) := cameraAspect_eq hfh
    set q : ℚ := (dw : ℚ) / cameraAspect fw fh with hqdef
    have hqe : q * fw = (dw : ℚ) * fh := by
      rw [hqdef, hca]
      field_simp
    have hlt : |q - (pyIntQ q : ℚ)| < 1 := by
      rw [abs_sub_comm]
      exact pyIntQ_abs_sub_lt_one q
    have : |(dw : ℚ) * fh - (pyIntQ q : ℚ) * fw| = |q - (pyIntQ q : ℚ)| * fw := by
      rw [← hqe, ← sub_mul, abs_mul, abs_of_pos hfwQ]
    calc |((dw : ℤ) : ℚ) * fh - (pyIntQ q : ℚ) * fw|
        = |q - (pyIntQ q : ℚ)| * fw := this
      _ < 1 * fw := mul_lt_mul_of_pos_right hlt hfwQ
      _ = fw := one_mul _
      _ ≤ max (fw : ℚ) (fh : ℚ) := le_max_left _ _
  · rw [letterbox_tall fw fh dw dh hfw hfh hdh hbr]
    have hca : cameraAspect fw fh = (fw : ℚ) / (fh : ℚ) := cameraAspect_eq hfh
    set q : ℚ := (dh : ℚ) * cameraAspect fw fh with hqdef
    have hqe : q * fh = (dh : ℚ) * fw := by
      rw [hqdef, hca]
      field_simp
    have hlt : |(pyIntQ q : ℚ) - q| < 1 := pyIntQ_abs_sub_lt_one q
    have : |(pyIntQ q : ℚ) * fh - (dh : ℚ) * fw| = |(pyIntQ q : ℚ) - q| * fh := by
      rw [← hqe, ← sub_mul, abs_mul, abs_of_pos hfhQ]
    calc |(pyIntQ q : ℚ) * fh - ((dh : ℤ) : ℚ) * fw|
        = |(pyIntQ q : ℚ) - q| * fh := this
      _ < 1 * fh := mul_lt_mul_of_pos_right hlt hfhQ
      _ = fh := one_mul _
      _ ≤ max (fw : ℚ) (fh : ℚ) := le_max_right _ _

/-- Claim C7 is false for degenerate viewports: a 32:9 frame letterboxed
into a 100x0 display area yields size (100, 0), whose height differs from
the aspect-preserving height 28.125 by far more than any integer-rounding
tolerance, because the height clamp takes over after the 16/9 fallback. -/
theorem C7_counterexample :
    letterbox 32 9 100 0 = (100, 0) ∧
    ¬ (|((letterbox 32 9 100 0).2 : ℚ) - (100 : ℚ) * 9 / 32| ≤ 1) := by
  have hfloor : pyIntQ ((((100 : ℤ)) : ℚ) / cameraAspect 32 9) = 28 := by
    have h1 : (((100 : ℤ)) : ℚ) / cameraAspect 32 9 = 225 / 8 := by
      rw [cameraAspect_eq (by norm_num : (0 : ℤ) < 9)]
      norm_num
    rw [h1, pyIntQ, if_pos (by norm_num)]
    rw [Int.floor_eq_iff]
    norm_num
  have hlb : letterbox 32 9 100 0 = (100, 0) := by
    unfold letterbox
    have hbr : cameraAspect 32 9 > displayAspect 100 0 := by
      rw [cameraAspect_eq (by norm_num : (0 : ℤ) < 9)]
      unfold displayAspect
      norm_num
    rw [if_pos hbr, if_pos hbr, min_self, hfloor]
    norm_num
  refine ⟨hlb, ?_⟩
  rw [hlb]
  norm_num
  rw [abs_of_nonneg (by norm_num : (0 : ℚ) ≤ 225 / 8)]
  norm_num

/-- Witness for C7: the amended theorem applied to a 16:9 frame and a
1000x1000 display area. -/
theorem C7_witness :
    (letterbox 16 9 1000 1000).1 ≤ 1000 ∧ (letterbox 16 9 1000 1000).2 ≤ 1000 ∧
    |((letterbox 16 9 1000 1000).1 : ℚ) * 9 - ((letterbox 16 9 1000 1000).2 : ℚ) * 16| <
      max (16 : ℚ) (9 : ℚ) := by
  have h := C7_letterbox_bounds_and_aspect 16 9 1000 1000 (by norm_num) (by norm_num)
  exact ⟨h.1, h.2.1, h.2.2 (by norm_num)⟩

end BodyVision

namespace BodyVision

/-! ## text_renderer.py: font pixel size and font cache -/

/-- base_font_size as computed by put_text_utf8 and get_text_size_utf8:
max(10, int(font_scale * 30)). -/
def pixelSize (font_scale : ℚ) : ℤ := max 10 (pyIntQ (font_scale * 30))

/-- Modelled from the spec: the pixel-size formula the spec states,
max(10, round(font_scale * 30)), with round-to-nearest instead of the
truncation the code performs. -/
def pixelSizeSpec (font_scale : ℚ) : ℤ := max 10 (round (font_scale * 30))

/-- A loaded font object, determined by the path it was loaded from and its
pixel size. -/
structure FontObj where
  path : Option String
  size : ℤ
deriving DecidableEq

def loadFont (font_path : Option String) (font_size : ℤ) : FontObj :=
  FontObj.mk font_path font_size

/-- The font cache: association of (font path, pixel size) keys to loaded
font objects. -/
def FontCache : Type := List ((Option String × ℤ) × FontObj)

def cacheFind : FontCache → (Option String × ℤ) → Option FontObj
  | [], _ => none
  | (k, f) :: rest, key => if k = key then some f else cacheFind rest key

/-- _get_cached_font: return the cached font for (font_path, font_size) if
present, otherwise load the font, store it under that key, and return it.
The third component counts how many fonts this call loaded. -/
def getCachedFont (cache : FontCache) (font_size : ℤ) (font_path : Option String) :
    FontObj × FontCache × ℕ :=
  match cacheFind cache (font_path, font_size) with
  | some f => (f, cache, 0)
  | none => (loadFont font_path font_size,
      ((font_path, font_size), loadFont font_path font_size) :: cache, 1)

/-- The font selection performed by put_text_utf8 on accented text:
base_font_size = max(10, int(font_scale * 30)), then _get_cached_font. -/
def putTextFontSel (cache : FontCache) (font_scale : ℚ) (font_path : Option String) :
    FontObj × FontCache × ℕ :=
  getCachedFont cache (pixelSize font_scale) font_path

/-- The font selection performed by get_text_size_utf8 on accented text. -/
def getTextSizeFontSel (cache : FontCache) (font_scale : ℚ) (font_path : Option String) :
    FontObj × FontCache × ℕ :=
  getCachedFont cache (pixelSize font_scale) font_path

/-- Claim C9 is false as stated: the code derives the pixel size with int()
truncation, not round(); at font_scale 0.59 the product is 17.7, the code
uses pixel size 17 while the claimed formula gives 18. -/
theorem C9_counterexample :
    pixelSize (59 / 100) = 17 ∧ pixelSizeSpec (59 / 100) = 18 ∧ (17 : ℤ) ≠ 18 := by
  have h1 : ((59 : ℚ) / 100) * 30 = 177 / 10 := by norm_num
  refine ⟨?_, ?_, by decide⟩
  · have hf : Int.floor ((177 : ℚ) / 10) = 17 := by
      rw [Int.floor_eq_iff]
      constructor <;> norm_num
    rw [pixelSize, h1, pyIntQ, if_pos (by norm_num), hf]
    decide
  · have hf : Int.floor ((177 : ℚ) / 10 + 1 / 2) = 18 := by
      rw [Int.floor_eq_iff]
      constructor <;> norm_num
    rw [pixelSizeSpec, h1, round_eq, hf]
    decide

/-- Claim C9 (amended): the pixel size is derived as max(10, int(font_scale
* 30)) with int() truncating toward zero (hence never below 10 and within
one unit of font_scale * 30 whenever that product is at least 10), both
text-rendering entry points derive the same size from the same scale, and
fonts are cached under the (path, pixel size) key: a repeated call at the
same scale and path returns the previously loaded font object, leaves the
cache unchanged, and loads nothing. -/
theorem C9_font_cache_reuse_and_truncated_size :
    (∀ (cache : FontCache) (s : ℚ) (p : Option String),
      putTextFontSel (putTextFontSel cache s p).2.1 s p =
        ((putTextFontSel cache s p).1, (putTextFontSel cache s p).2.1, 0)) ∧
    (∀ (cache : FontCache) (s : ℚ) (p : Option String),
      getTextSizeFontSel cache s p = putTextFontSel cache s p) ∧
    (∀ s : ℚ, 10 ≤ pixelSize s) ∧
    (∀ s : ℚ, 10 ≤ s * 30 → |(pixelSize s : ℚ) - s * 30| < 1) := by
  refine ⟨?_, fun cache s p => rfl, fun s => le_max_left _ _, ?_⟩
  · intro cache s p
    unfold putTextFontSel getCachedFont
    cases hfind : cacheFind cache (p, pixelSize s) with
    | some f => simp [hfind]
    | none => simp [hfind, cacheFind]
  · intro s hs
    have hmax : pixelSize s = pyIntQ (s * 30) := by
      rw [pixelSize, max_eq_right]
      rw [pyIntQ, if_pos (by linarith)]
      have : (10 : ℤ) = Int.floor ((10 : ℚ)) := by norm_num
      rw [this]
      exact Int.floor_le_floor hs
    rw [hmax]
    exact pyIntQ_abs_sub_lt_one (s * 30)

/-- Witness for C9: the size-tolerance clause applied at font_scale 1. -/
theorem C9_witness : |(pixelSize 1 : ℚ) - 1 * 30| < 1 :=
  C9_font_cache_reuse_and_truncated_size.2.2.2 1 (by norm_num)

end BodyVision

namespace BodyVision

/-! ## ui_renderer.py: verdict line wrapping in render_feedback_panel -/

/-- Python str.strip(): remove leading and trailing whitespace. -/
def pyStrip (s : List Char) : List Char :=
  ((s.dropWhile Char.isWhitespace).reverse.dropWhile Char.isWhitespace).reverse

theorem pyStrip_length_le (s : List Char) : (pyStrip s).length ≤ s.length := by
  unfold pyStrip
  rw [List.length_reverse]
  calc ((s.dropWhile Char.isWhitespace).reverse.dropWhile Char.isWhitespace).length
      ≤ (s.dropWhile Char.isWhitespace).reverse.length :=
        (List.dropWhile_suffix Char.isWhitespace).length_le
    _ = (s.dropWhile Char.isWhitespace).length := List.length_reverse _
    _ ≤ s.length := (List.dropWhile_suffix Char.isWhitespace).length_le

/-- Python s.rfind(sep, 0, stop): the highest index below stop holding a
semicolon, or none. -/
def rfindSemi (s : List Char) (stop : ℕ) : Option ℕ :=
  match (s.take stop).reverse.findIdx? (fun c => c == ';') with
  | none => none
  | some j => some ((s.take stop).length - 1 - j)

/-- split_index after the -1 fallback: the rfind result, or max_chars. -/
def splitIdx (s : List Char) (max_chars : ℕ) : ℕ :=
  match rfindSemi s max_chars with
  | none => max_chars
  | some i => i

/-- max_chars: int(50 * scale_factor) with scale_factor = camera_width /
1280.0. -/
def maxCharsOf (camera_width : ℚ) : ℤ := pyIntQ (50 * (camera_width / 1280))

/-- The wrapping loop of render_feedback_panel, with explicit fuel: while
the remaining text is longer than max_chars, split at the last semicolon
before max_chars (or at max_chars when there is none), emit the stripped
head as a line and continue on the stripped tail; finally append the
remainder.  none means the fuel ran out before the loop finished. -/
def wrapFuel : ℕ → ℕ → List Char → Option (List (List Char))
  | 0, _, _ => none
  | fuel + 1, max_chars, s =>
    if s.length > max_chars then
      match wrapFuel fuel max_chars (pyStrip (s.drop (splitIdx s max_chars + 1))) with
      | none => none
      | some ls => some (pyStrip (s.take (splitIdx s max_chars + 1)) :: ls)
    else some [s]

theorem wrap_remainder_shorter (s : List Char) (max_chars : ℕ)
    (h : s.length > max_chars) :
    (pyStrip (s.drop (splitIdx s max_chars + 1))).length < s.length := by
  have h1 : (pyStrip (s.drop (splitIdx s max_chars + 1))).length ≤
      (s.drop (splitIdx s max_chars + 1)).length := pyStrip_length_le _
  have h2 : (s.drop (splitIdx s max_chars + 1)).length =
      s.length - (splitIdx s max_chars + 1) := List.length_drop _ _
  omega

theorem wrapFuel_isSome (max_chars : ℕ) :
    ∀ (n : ℕ) (s : List Char), s.length < n → (wrapFuel n max_chars s).isSome = true := by
  intro n
  induction n with
  | zero => exact fun s h => absurd h (Nat.not_lt_zero _)
  | succ n ih =>
    intro s hs
    rw [wrapFuel]
    split
    · have hdec := wrap_remainder_shorter s max_chars (by assumption)
      have hrec := ih (pyStrip (s.drop (splitIdx s max_chars + 1))) (by omega)
      cases hw : wrapFuel n max_chars (pyStrip (s.drop (splitIdx s max_chars + 1))) with
      | none => rw [hw] at hrec; exact absurd hrec (by simp)
      | some ls => simp [hw]
    · simp

/-- Claim C10: the verdict line-wrapping loop terminates for every finite
verdict string and every non-negative character budget: each iteration
strictly shortens the remaining string (even with budget 0 or without any
semicolon), a fuel of length+1 always suffices to finish the loop, and the
budget int(50 * camera_width / 1280) is non-negative for every non-negative
camera width. -/
theorem C10_feedback_wrapping_terminates :
    (∀ (s : List Char) (max_chars : ℕ), s.length > max_chars →
      (pyStrip (s.drop (splitIdx s max_chars + 1))).length < s.length) ∧
    (∀ (max_chars : ℕ) (s : List Char),
      (wrapFuel (s.length + 1) max_chars s).isSome = true) ∧
    (∀ camera_width : ℚ, 0 ≤ camera_width → 0 ≤ maxCharsOf camera_width) := by
  refine ⟨wrap_remainder_shorter, ?_, ?_⟩
  · exact fun max_chars s => wrapFuel_isSome max_chars (s.length + 1) s (Nat.lt_succ_self _)
  · intro w hw
    rw [maxCharsOf, pyIntQ, if_pos (by positivity)]
    exact Int.floor_nonneg.mpr (by positivity)

/-- Witness for C10: the strict-decrease clause on a concrete two-character
string with budget 0, the termination clause on a concrete string, and the
budget clause at camera width 1280. -/
theorem C10_witness :
    (pyStrip (("ab".data).drop (splitIdx ("ab".data) 0 + 1))).length < ("ab".data).length ∧
    (wrapFuel (("abc; de".data).length + 1) 2 ("abc; de".data)).isSome = true ∧
    (0 : ℤ) ≤ maxCharsOf 1280 :=
  ⟨C10_feedback_wrapping_terminates.1 ("ab".data) 0 (by decide),
   C10_feedback_wrapping_terminates.2.1 2 ("abc; de".data),
   C10_feedback_wrapping_terminates.2.2 1280 (by norm_num)⟩

end BodyVision

namespace BodyVision

/-! ## pose_evaluator.py: calculate_angle (real-valued model) -/

/-- Magnitude of a 2D vector: sqrt(x**2 + y**2). -/
noncomputable def vecMag (u : ℝ × ℝ) : ℝ := Real.sqrt (u.1 ^ 2 + u.2 ^ 2)

/-- The clamp applied to the cosine before acos: max(-1.0, min(1.0, x)). -/
noncomputable def clampCos (x : ℝ) : ℝ := max (-1) (min 1 x)

/-- calculate_angle(a, b, c): the angle at vertex b between the vectors
b->a and b->c, in degrees; 0 when either vector has zero magnitude; the
cosine is clamped to [-1, 1] before the inverse cosine. -/
noncomputable def calculate_angle (a b c : ℝ × ℝ) : ℝ :=
  if vecMag (a.1 - b.1, a.2 - b.2) = 0 ∨ vecMag (c.1 - b.1, c.2 - b.2) = 0 then 0
  else
    Real.arccos (clampCos
      (((a.1 - b.1) * (c.1 - b.1) + (a.2 - b.2) * (c.2 - b.2)) /
        (vecMag (a.1 - b.1, a.2 - b.2) * vecMag (c.1 - b.1, c.2 - b.2)))) * 180 / Real.pi

theorem clampCos_zero : clampCos 0 = 0 := by
  unfold clampCos
  rw [min_eq_right (by norm_num : (0 : ℝ) ≤ 1), max_eq_right (by norm_num : (-1 : ℝ) ≤ 0)]

theorem clampCos_neg_one : clampCos (-1) = -1 := by
  unfold clampCos
  rw [min_eq_right (by norm_num : (-1 : ℝ) ≤ 1), max_self]

/-- Claim C2: calculate_angle gives 90 degrees (within 1e-6) on the
perpendicular unit configuration, exactly 180 degrees on the opposite
collinear configuration, exactly 0 whenever either vector has zero
magnitude, and for every input it is defined with a value in [0, 180],
the cosine argument being clamped to [-1, 1]. -/
theorem C2_calculate_angle_properties :
    |calculate_angle ((0 : ℝ), (1 : ℝ)) (0, 0) (1, 0) - 90| ≤ 1 / 1000000 ∧
    calculate_angle ((0 : ℝ), (1 : ℝ)) (0, 0) (0, -1) = 180 ∧
    (∀ a b c : ℝ × ℝ,
      (vecMag (a.1 - b.1, a.2 - b.2) = 0 ∨ vecMag (c.1 - b.1, c.2 - b.2) = 0) →
        calculate_angle a b c = 0) ∧
    (∀ a b c : ℝ × ℝ, 0 ≤ calculate_angle a b c ∧ calculate_angle a b c ≤ 180) ∧
    (∀ x : ℝ, -1 ≤ clampCos x ∧ clampCos x ≤ 1) := by
  have hsq1 : Real.sqrt 1 = 1 := Real.sqrt_one
  have h90 : calculate_angle ((0 : ℝ), (1 : ℝ)) (0, 0) (1, 0) = 90 := by
    unfold calculate_angle vecMag
    norm_num [hsq1]
    rw [clampCos_zero, Real.arccos_zero]
    field_simp
    ring
  refine ⟨?_, ?_, ?_, ?_, ?_⟩
  · rw [h90]
    norm_num
  · unfold calculate_angle vecMag
    norm_num [hsq1]
    rw [clampCos_neg_one, Real.arccos_neg_one]
    field_simp
  · intro a b c h
    unfold calculate_angle
    rw [if_pos h]
  · intro a b c
    unfold calculate_angle
    split
    · norm_num
    · have h0 : 0 ≤ Real.arccos (clampCos
          (((a.1 - b.1) * (c.1 - b.1) + (a.2 - b.2) * (c.2 - b.2)) /
            (vecMag (a.1 - b.1, a.2 - b.2) * vecMag (c.1 - b.1, c.2 - b.2)))) :=
        Real.arccos_nonneg _
      have hpi : Real.arccos (clampCos
          (((a.1 - b.1) * (c.1 - b.1) + (a.2 - b.2) * (c.2 - b.2)) /
            (vecMag (a.1 - b.1, a.2 - b.2) * vecMag (c.1 - b.1, c.2 - b.2)))) ≤ Real.pi :=
        Real.arccos_le_pi _
      constructor
      · positivity
      · rw [div_le_iff Real.pi_pos]
        nlinarith [Real.pi_pos]
  · intro x
    constructor
    · exact le_max_left _ _
    · exact max_le (by norm_num) (min_le_left _ _)

/-- Witness for C2: the zero-magnitude clause applied at a = b = (0, 0),
where the vector b->a has zero magnitude. -/
theorem C2_witness : calculate_angle ((0 : ℝ), (0 : ℝ)) (0, 0) (1, 1) = 0 :=
  C2_calculate_angle_properties.2.2.1 ((0 : ℝ), (0 : ℝ)) (0, 0) (1, 1)
    (Or.inl (by unfold vecMag; norm_num))

end BodyVision
